import Mathlib

/-!
Verification of the Axiell Arena scraping client
(`custom_components/folkbibliotek_sverige`).

The development shallowly embeds the Python code:

* HTML documents (BeautifulSoup trees built with `html.parser`) become the
  inductive type `Node`.  A `Tag` is `Node.elem` with its tag name, optional
  `id` attribute, optional multi-valued `class` attribute and child list; a
  `NavigableString` is `Node.text`.  A `Tag` is always truthy in boolean
  context, so Python's `if not tag:` tests are modelled as `Option.isNone`
  on the result of the corresponding search.
* CSS selection (`select_one` / `select`, simple selectors and the
  descendant combinator) and `find` with name/attribute filters are
  implemented over `Node`: candidates are the strict descendants of the
  searched tag in document (pre-)order.
* Python functions that can raise become `Option` / `Except` valued
  functions; `none` / `.error` models the raised exception, and the
  evaluation (bind) order follows Python's left-to-right argument
  evaluation so that the *first* raising sub-expression decides the result.
* Python string operations `s.rsplit(" ", 1)[-1]`, `s.split(" ")[0]` and
  `s.startswith(p)` are implemented structurally on the character list.
* The login retry loop (`while attempt < LOGIN_ATTEMPTS`) is modelled by
  structural recursion on `remaining = LOGIN_ATTEMPTS - attempt`; network
  responses are parameters (`posts : Nat → Node` gives the parsed body of
  the n-th POST attempt, attempts numbered from 1), and HTTP transport is
  assumed to deliver 2xx responses (`raise_for_status` out of scope).
  Side effects on the shared session are recorded as an `Event` trace.
-/

/-- A parsed HTML node: either a `NavigableString` or a `Tag` with name,
optional `id` attribute, optional multi-valued `class` attribute
(`none` models an absent `class` attribute, for which `tag.get("class")`
returns Python `None`) and children in document order. -/
inductive Node where
  | text (s : String)
  | elem (nm : String) (idAttr : Option String) (classes : Option (List String))
      (children : List Node)

/-- Children of a tag (`tag.children` restricted to our node kinds). -/
def Node.childNodes : Node → List Node
  | .text _ => []
  | .elem _ _ _ cs => cs

/-- The `name` of a node; `None` for a `NavigableString`. -/
def Node.nodeName : Node → Option String
  | .text _ => none
  | .elem nm _ _ _ => some nm

/-- The value of `tag.get("class")`: the class list, or `none` when the
attribute is absent. -/
def Node.classAttr : Node → Option (List String)
  | .text _ => none
  | .elem _ _ cls _ => cls

mutual
/-- BeautifulSoup `.text`: concatenation of all string descendants in
document order. -/
def Node.innerText : Node → String
  | .text s => s
  | .elem _ _ _ cs => innerTextList cs

/-- Helper for `Node.innerText` on a child list. -/
def innerTextList : List Node → String
  | [] => ""
  | c :: cs => c.innerText ++ innerTextList cs
end

mutual
/-- All strict descendants of a node in document (pre-)order, each paired
with the list of its ancestors up to and including the node the search
started from (`anc` accumulates ancestors of the current node). -/
def Node.descWithAnc (anc : List Node) : Node → List (Node × List Node)
  | .text _ => []
  | n@(.elem _ _ _ cs) => descListWithAnc (n :: anc) cs

/-- Helper for `Node.descWithAnc` on a child list. -/
def descListWithAnc (anc : List Node) : List Node → List (Node × List Node)
  | [] => []
  | c :: cs => (c, anc) :: (Node.descWithAnc anc c ++ descListWithAnc anc cs)
end

/-- A simple CSS selector `name#id.cls1.cls2` (each part optional). -/
structure Sel where
  tagName : Option String
  idAttr : Option String
  classNames : List String

/-- Whether a node matches a simple selector.  Class matching follows
BeautifulSoup/soupsieve: every selector class must occur in the tag's
(multi-valued) class attribute; a tag without the attribute has no
classes. -/
def Sel.matchesNode (s : Sel) : Node → Bool
  | .text _ => false
  | .elem nm idv cls _ =>
    (match s.tagName with | none => true | some t => t == nm) &&
    (match s.idAttr with | none => true | some i => some i == idv) &&
    s.classNames.all fun c => (cls.getD []).contains c

/-- `tag.select(sel)` for a simple selector: all matching strict
descendants in document order. -/
def selectAll (s : Sel) (t : Node) : List Node :=
  (Node.descWithAnc [] t).filterMap fun p =>
    if s.matchesNode p.1 then some p.1 else none

/-- `tag.select_one(sel)` for a simple selector. -/
def selectOne (s : Sel) (t : Node) : Option Node :=
  (selectAll s t).head?

/-- `tag.select("a b")` (descendant combinator): strict descendants
matching `b` that have an ancestor within the searched tree (including the
searched tag itself) matching `a`. -/
def selectAllDesc (a b : Sel) (t : Node) : List Node :=
  (Node.descWithAnc [] t).filterMap fun p =>
    if b.matchesNode p.1 && p.2.any a.matchesNode then some p.1 else none

/-- `tag.select_one("a b")` (descendant combinator). -/
def selectOneDesc (a b : Sel) (t : Node) : Option Node :=
  (selectAllDesc a b t).head?

/-! String helpers modelling the Python `str` operations used by the
client, implemented structurally on the character list. -/

/-- Split a character list at every character satisfying `p`
(Python `str.split(sep)` keeps empty chunks). -/
def splitPredList (p : Char → Bool) : List Char → List (List Char)
  | [] => [[]]
  | x :: xs =>
    let r := splitPredList p xs
    if p x then [] :: r
    else
      match r with
      | [] => [[x]]
      | y :: ys => (x :: y) :: ys

/-- Python `s.split(" ")[0]`: the text before the first space character
(empty when the text starts with a space). -/
def splitSpaceFirst (s : String) : String :=
  String.mk ((splitPredList (fun c => c == ' ') s.data).headD [])

/-- Python `s.rsplit(" ", 1)[-1]`: the text after the last space character
(the whole text when it contains no space). -/
def rsplitSpaceLast (s : String) : String :=
  String.mk ((splitPredList (fun c => c == ' ') s.data).getLastD [])

/-- Python `s.startswith(p)`. -/
def pyStartsWith (s p : String) : Bool :=
  p.data.isPrefixOf s.data

/-- Modelled from the spec: the "first whitespace-delimited token" of a
string (Python `s.split()[0]`, whitespace splitting with empty chunks
dropped; empty string when there is no token).  This is the spec's wording
for the queue-number derivation, stated for comparison with the code's
`s.split(" ")[0]`. -/
def firstWhitespaceToken (s : String) : String :=
  String.mk
    (((splitPredList Char.isWhitespace s.data).filter fun l => !l.isEmpty).headD [])

/-! CSS selectors appearing literally in
`axiell_arena_client/__init__.py`. -/

/-- `table#loansTable` -/
def selLoansTable : Sel := ⟨some "table", some "loansTable", []⟩
/-- `span.arena-record-id` -/
def selRecordId : Sel := ⟨some "span", none, ["arena-record-id"]⟩
/-- `div.arena-record-title` (first part of `div.arena-record-title span`) -/
def selRecordTitle : Sel := ⟨some "div", none, ["arena-record-title"]⟩
/-- `span` (second part of `div.arena-record-title span`) -/
def selAnySpan : Sel := ⟨some "span", none, []⟩
/-- `div.arena-record-media` -/
def selRecordMedia : Sel := ⟨some "div", none, ["arena-record-media"]⟩
/-- `div.arena-record-author` -/
def selRecordAuthor : Sel := ⟨some "div", none, ["arena-record-author"]⟩
/-- `div.arena-record-year` -/
def selRecordYear : Sel := ⟨some "div", none, ["arena-record-year"]⟩
/-- `div.arena-renewal-branch` -/
def selRenewalBranch : Sel := ⟨some "div", none, ["arena-renewal-branch"]⟩
/-- `span.arena-renewal-date-value` -/
def selRenewalDateValue : Sel := ⟨some "span", none, ["arena-renewal-date-value"]⟩
/-- `td.arena-reservation-from-container` -/
def selReservationFrom : Sel := ⟨some "td", none, ["arena-reservation-from-container"]⟩
/-- `td.arena-reservation-to-container` -/
def selReservationTo : Sel := ⟨some "td", none, ["arena-reservation-to-container"]⟩
/-- `td.arena-record-queue` -/
def selRecordQueue : Sel := ⟨some "td", none, ["arena-record-queue"]⟩
/-- `td.arena-record-branch` -/
def selRecordBranch : Sel := ⟨some "td", none, ["arena-record-branch"]⟩
/-- `td.arena-record-expire` -/
def selRecordExpire : Sel := ⟨some "td", none, ["arena-record-expire"]⟩
/-- `td.arena-record-pickup` -/
def selRecordPickup : Sel := ⟨some "td", none, ["arena-record-pickup"]⟩
/-- `div.portlet-myReservations` -/
def selMyReservations : Sel := ⟨some "div", none, ["portlet-myReservations"]⟩
/-- `div.arena-library-record` -/
def selLibraryRecord : Sel := ⟨some "div", none, ["arena-library-record"]⟩
/-- `span.arena-value` -/
def selArenaValue : Sel := ⟨some "span", none, ["arena-value"]⟩
/-- `find("div", id="portlet_patronLogin_WAR_arenaportlet")` -/
def selPatronLoginPortlet : Sel :=
  ⟨some "div", some "portlet_patronLogin_WAR_arenaportlet", []⟩
/-- `find("div", class="arena-patron-form")` -/
def selPatronForm : Sel := ⟨some "div", none, ["arena-patron-form"]⟩
/-- `find("span", class="feedbackPanelWARNING")` -/
def selFeedbackWarning : Sel := ⟨some "span", none, ["feedbackPanelWARNING"]⟩

/-- `_get_value(tag, selector)`: select the nested value span
`f"{selector}  span.arena-value"`; return `None` when the selector matches
nothing, otherwise the selected tag's text. -/
def get_value (tag : Node) (sel : Sel) : Option String :=
  (selectOneDesc sel selArenaValue tag).map Node.innerText

/-- `LibraryLoan` (with the `LibraryMaterial` base fields inlined, as
Python dataclass inheritance concatenates them). -/
structure LibraryLoan where
  record_id : Option String
  type : Option String
  title : Option String
  author : Option String
  year : Option String
  loan_date : Option String
  expire_date : Option String
  renewable : Option Bool
deriving DecidableEq

/-- `LibraryReservation`. -/
structure LibraryReservation where
  record_id : Option String
  type : Option String
  title : Option String
  author : Option String
  year : Option String
  created_date : Option String
  expire_date : Option String
  queue_number : Option String
  pickup_library : Option String
deriving DecidableEq

/-- `LibraryReservationReady`. -/
structure LibraryReservationReady where
  record_id : Option String
  type : Option String
  title : Option String
  author : Option String
  year : Option String
  created_date : Option String
  pickup_date : Option String
  reservation_number : Option String
  pickup_library : Option String
deriving DecidableEq

/-- `LibraryLoan.from_soup`.  `none` models a raised exception; the nested
matches follow Python's evaluation order: `soup.get("class")` first
(membership in `None` raises `TypeError` when the row has no `class`
attribute), then the constructor arguments left to right, where
`select_one(...).text` / `_get_value(...).rsplit(...)` raise
`AttributeError` when the lookup returned `None`. -/
def LibraryLoan.from_soup (soup : Node) : Option LibraryLoan :=
  match soup.classAttr with
  | none => none
  | some cls =>
    match selectOne selRecordId soup with
    | none => none
    | some rid =>
      match selectOneDesc selRecordTitle selAnySpan soup with
      | none => none
      | some titleTag =>
        match get_value soup selRenewalBranch with
        | none => none
        | some branch =>
          match selectOne selRenewalDateValue soup with
          | none => none
          | some expireTag =>
            some
              { record_id := some rid.innerText
                type := get_value soup selRecordMedia
                title := some titleTag.innerText
                author := get_value soup selRecordAuthor
                year := get_value soup selRecordYear
                loan_date := some (rsplitSpaceLast branch)
                expire_date := some expireTag.innerText
                renewable := some
                  (if cls.contains "arena-renewal-false" then false
                   else if cls.contains "arena-renewal-true" then true
                   else false) }

/-- `LibraryReservation.from_soup`. -/
def LibraryReservation.from_soup (soup : Node) : Option LibraryReservation :=
  match selectOne selRecordId soup with
  | none => none
  | some rid =>
    match selectOneDesc selRecordTitle selAnySpan soup with
    | none => none
    | some titleTag =>
      match get_value soup selRecordQueue with
      | none => none
      | some queue =>
        some
          { record_id := some rid.innerText
            type := get_value soup selRecordMedia
            title := some titleTag.innerText
            author := get_value soup selRecordAuthor
            year := get_value soup selRecordYear
            created_date := get_value soup selReservationFrom
            expire_date := get_value soup selReservationTo
            queue_number := some (splitSpaceFirst queue)
            pickup_library := get_value soup selRecordBranch }

/-- `LibraryReservationReady.from_soup`. -/
def LibraryReservationReady.from_soup (soup : Node) :
    Option LibraryReservationReady :=
  match selectOne selRecordId soup with
  | none => none
  | some rid =>
    match selectOneDesc selRecordTitle selAnySpan soup with
    | none => none
    | some titleTag =>
      some
        { record_id := some rid.innerText
          type := get_value soup selRecordMedia
          title := some titleTag.innerText
          author := get_value soup selRecordAuthor
          year := get_value soup selRecordYear
          created_date := get_value soup selReservationFrom
          pickup_date := get_value soup selRecordExpire
          reservation_number := get_value soup selRecordPickup
          pickup_library := get_value soup selRecordBranch }

/-- `ArenaClient.get_loans`: locate `table#loansTable` (absent, or present
and empty hence falsy, means no loans — an empty table also has no `tr`
children, so both readings agree); build a loan from every direct `tr`
child. -/
def ArenaClient.get_loans (soup : Node) : Option (List LibraryLoan) :=
  match selectOne selLoansTable soup with
  | none => some []
  | some table =>
    ((table.childNodes.filter fun r => r.nodeName == some "tr").mapM
      LibraryLoan.from_soup)

/-- `ArenaClient._get_reservations`: the `div.portlet-myReservations`
container, or `none` when it is absent or holds no
`div.arena-library-record` fragments. -/
def ArenaClient.get_reservations (soup : Node) : Option Node :=
  match selectOne selMyReservations soup with
  | none => none
  | some res =>
    if (selectAll selLibraryRecord res).isEmpty then none else some res

/-- The reservation-record fragments of the overview document (empty when
the container is absent). -/
def reservationFragments (soup : Node) : List Node :=
  match ArenaClient.get_reservations soup with
  | none => []
  | some res => selectAll selLibraryRecord res

/-- Whether a reservation fragment contains a pickup-number field
(`reservation.select_one("td.arena-record-pickup")` is truthy). -/
def hasPickup (r : Node) : Bool :=
  (selectOne selRecordPickup r).isSome

/-- The fragments kept by `get_active_reservations`'s comprehension
(`if not reservation.select_one("td.arena-record-pickup")`). -/
def activeFragments (soup : Node) : List Node :=
  (reservationFragments soup).filter fun r => !hasPickup r

/-- The fragments kept by `get_ready_reservations`'s comprehension
(`if reservation.select_one("td.arena-record-pickup")`). -/
def readyFragments (soup : Node) : List Node :=
  (reservationFragments soup).filter hasPickup

/-- `ArenaClient.get_active_reservations`. -/
def ArenaClient.get_active_reservations (soup : Node) :
    Option (List LibraryReservation) :=
  (activeFragments soup).mapM LibraryReservation.from_soup

/-- `ArenaClient.get_ready_reservations`. -/
def ArenaClient.get_ready_reservations (soup : Node) :
    Option (List LibraryReservationReady) :=
  (readyFragments soup).mapM LibraryReservationReady.from_soup

/-! Session/login manager. -/

/-- `LOGIN_ATTEMPTS` -/
def LOGIN_ATTEMPTS : Nat := 3

/-- The Arena exception kinds raised by the client (class `ArenaError` and
subclasses; `loginFailed` is a plain `ArenaLoginError(msg)` as raised on
retry exhaustion). -/
inductive ArenaExc where
  | loginFormNotFound
  | accountLocked
  | invalidCredentials
  | notLoggedIn (feedback : Option String)
  | loginFailed (msg : String)
deriving DecidableEq

/-- The account-locked feedback message opening, byte-for-byte as in the
source (`"Ditt konto har st√§ngts"`, mojibake included). -/
def lockedMsgText : String := "Ditt konto har st√§ngts"

/-- The invalid-credentials feedback message opening
(`"Du blev inte inloggad"`). -/
def invalidMsgText : String := "Du blev inte inloggad"

/-- `ArenaClient._raise_if_not_logged_in`: inspect a fetched body.
`.ok ()` models a normal return (logged in); `.error` models the raised
exception. -/
def ArenaClient.raise_if_not_logged_in (doc : Node) : Except ArenaExc Unit :=
  match selectOne selPatronLoginPortlet doc with
  | none => .error .loginFormNotFound
  | some patron_login =>
    match selectOne selPatronForm patron_login with
    | none => .ok ()
    | some _ =>
      match selectOne selFeedbackWarning patron_login with
      | none => .error (.notLoggedIn none)
      | some feedback_panel =>
        if pyStartsWith feedback_panel.innerText lockedMsgText then
          .error .accountLocked
        else if pyStartsWith feedback_panel.innerText invalidMsgText then
          .error .invalidCredentials
        else .error (.notLoggedIn (some feedback_panel.innerText))

/-- Whether an inspection outcome is a raised `ArenaNotLoggedInError`
(the only class caught by `_get_url` and by the retry loop). -/
def isNotLoggedInErr : Except ArenaExc Unit → Bool
  | .error (.notLoggedIn _) => true
  | _ => false

/-- Observable session effects of a fetch. -/
inductive Event where
  | getReq
  | clearCookies
  | postReq (attempt : Nat)
deriving DecidableEq

/-- Number of POST requests in a trace. -/
def postCount (evs : List Event) : Nat :=
  evs.countP fun e => match e with | .postReq _ => true | _ => false

/-- The body of `while attempt < LOGIN_ATTEMPTS` in
`ArenaClient._login_and_get_url`, by structural recursion on
`remaining = LOGIN_ATTEMPTS - attempt` (the loop increments `attempt`,
POSTs, and inspects; `ArenaNotLoggedInError` is swallowed and the loop
continues, a logged-in inspection returns the body, any other exception
propagates; an exhausted loop raises
`ArenaLoginError("Unknown login error")`).  `posts n` is the parsed body
of the n-th POST response; the trace records the issued POSTs. -/
def loginLoopGo (posts : Nat → Node) (attempt : Nat) :
    Nat → List Event × Except ArenaExc Node
  | 0 => ([], .error (.loginFailed "Unknown login error"))
  | remaining + 1 =>
    match ArenaClient.raise_if_not_logged_in (posts (attempt + 1)) with
    | .ok () =>
      ([.postReq (attempt + 1)], .ok (posts (attempt + 1)))
    | .error (.notLoggedIn _) =>
      ((.postReq (attempt + 1)) :: (loginLoopGo posts (attempt + 1) remaining).1,
       (loginLoopGo posts (attempt + 1) remaining).2)
    | .error e => ([.postReq (attempt + 1)], .error e)

/-- `ArenaClient._login_and_get_url`: clear the session cookie jar once,
then run the retry loop from `attempt = 0`. -/
def ArenaClient.login_and_get_url (posts : Nat → Node) :
    List Event × Except ArenaExc Node :=
  let r := loginLoopGo posts 0 LOGIN_ATTEMPTS
  (Event.clearCookies :: r.1, r.2)

/-- `ArenaClient._get_url` (the body of `fetchAccountOverview`): GET the
page, inspect it, and return it when logged in; only a raised
`ArenaNotLoggedInError` is caught and triggers the login sequence — every
other inspection exception propagates.  `getResp` is the parsed GET body.
-/
def ArenaClient.get_url (getResp : Node) (posts : Nat → Node) :
    List Event × Except ArenaExc Node :=
  match ArenaClient.raise_if_not_logged_in getResp with
  | .ok () => ([.getReq], .ok getResp)
  | .error (.notLoggedIn _) =>
    let r := ArenaClient.login_and_get_url posts
    (.getReq :: r.1, r.2)
  | .error e => ([.getReq], .error e)

/-! Config flow (`config_flow.py`). -/

/-- Python exception classes that can escape
`client.get_account_overview()` inside `validate_input`, at the
granularity the `except` clauses distinguish. -/
inductive PyExc where
  | arenaBase
  | arenaLoginGeneric
  | arenaLoginFormNotFound
  | arenaAccountLocked
  | arenaInvalidCredentials
  | arenaNotLoggedIn
  | hostOther
deriving DecidableEq

/-- Whether an exception is an instance of `ArenaError` (every Arena class
subclasses it: `ArenaLoginError` and its three subclasses directly or
transitively, and `ArenaNotLoggedInError`). -/
def PyExc.isArenaError : PyExc → Bool
  | .hostOther => false
  | _ => true

/-- `validate_input`, as a function of the outcome of the overview fetch
(`none` = no exception): the `except` clauses are tried in source order,
and the first clause whose class matches handles the exception — exactly
Python's semantics, including that `except ArenaError` precedes the
`ArenaAccountLockedError` / `ArenaInvalidCredentialsError` clauses. -/
def validate_input (outcome : Option PyExc) : List (String × String) :=
  match outcome with
  | none => []
  | some e =>
    if e.isArenaError then [("base", "cannot_connect")]
    else if e = .arenaAccountLocked then [("base", "account_locked")]
    else if e = .arenaInvalidCredentials then [("base", "invalid_credentials")]
    else [("base", "unknown")]

/-- Modelled from the spec: the error mapping the spec states for
setup/reconfigure validation failures ("an account-locked client error
surfaces account-locked, an invalid-credentials client error surfaces
invalid-credentials, any other client (Arena) error surfaces
cannot-connect, any other exception surfaces unknown"). -/
def validateInputSpec (outcome : Option PyExc) : List (String × String) :=
  match outcome with
  | none => []
  | some e =>
    if e = .arenaAccountLocked then [("base", "account_locked")]
    else if e = .arenaInvalidCredentials then [("base", "invalid_credentials")]
    else if e.isArenaError then [("base", "cannot_connect")]
    else [("base", "unknown")]

/-- `async_step_user`'s decision to create the config entry: an entry is
created only when `validate_input` returned no errors. -/
def async_step_user_creates_entry (outcome : Option PyExc) : Bool :=
  validate_input outcome == []

/-! Refresh coordinator (`coordinator.py`). -/

/-- The exceptions `_async_update_data` can raise:
`ConfigEntryAuthFailed`, `UpdateFailed`, or an unexpected extraction
exception propagating out of the record extractor. -/
inductive CoordExc where
  | configEntryAuthFailed
  | updateFailed
  | unexpected
deriving DecidableEq

/-- `FolkbibliotekSverigeData`. -/
structure FolkbibliotekSverigeData where
  loans : List LibraryLoan
  active_reservations : List LibraryReservation
  waiting_reservations : List LibraryReservationReady
deriving DecidableEq

/-- One run of
`FolkbibliotekSverigeDataUpdateCoordinator._async_update_data`, as a
function of the coordinator's `last_exception` and of the outcome of
`client.get_account_overview()`.  The returned flag records whether the
client was invoked (a network request issued): when the previous failure
was a `ConfigEntryAuthFailed`, the method re-raises it before touching the
client.  `ArenaAccountLockedError` / `ArenaInvalidCredentialsError` are
re-raised as `ConfigEntryAuthFailed`, any other `ArenaError` as
`UpdateFailed`; otherwise the three extractors build the data (an
extractor exception propagates). -/
def coordUpdate (lastExc : Option CoordExc) (fetch : Except ArenaExc Node) :
    Except CoordExc FolkbibliotekSverigeData × Bool :=
  if lastExc = some CoordExc.configEntryAuthFailed then
    (.error .configEntryAuthFailed, false)
  else
    match fetch with
    | .error .accountLocked => (.error .configEntryAuthFailed, true)
    | .error .invalidCredentials => (.error .configEntryAuthFailed, true)
    | .error _ => (.error .updateFailed, true)
    | .ok overview =>
      match ArenaClient.get_loans overview,
          ArenaClient.get_active_reservations overview,
          ArenaClient.get_ready_reservations overview with
      | some l, some a, some w => (.ok ⟨l, a, w⟩, true)
      | _, _, _ => (.error .unexpected, true)

/-- Modelled from the spec: the host coordinator abstraction (the
`DataUpdateCoordinator` base class is host-framework code, not under
`src/`) retains the exception raised by a refresh as `last_exception` for
the next cycle and resets it on success; the spec requires the
orchestrator to "suppress further automatic refresh attempts until
credentials are corrected".  `coordLastExc fetches n` is `last_exception`
before the n-th automatic refresh of an uninterrupted sequence (no
credential correction, which would reload the entry and rebuild the
coordinator). -/
def coordLastExc (fetches : Nat → Except ArenaExc Node) : Nat → Option CoordExc
  | 0 => none
  | n + 1 =>
    match (coordUpdate (coordLastExc fetches n) (fetches n)).1 with
    | .ok _ => none
    | .error e => some e

/-- The n-th automatic refresh: its outcome and whether the client was
invoked. -/
def coordRefresh (fetches : Nat → Except ArenaExc Node) (n : Nat) :
    Except CoordExc FolkbibliotekSverigeData × Bool :=
  coordUpdate (coordLastExc fetches n) (fetches n)

/-! Concrete documents used by witnesses and counterexamples. -/

/-- Element with classes only. -/
def el (nm : String) (cls : List String) (cs : List Node) : Node :=
  .elem nm none (some cls) cs

/-- Text node. -/
def txt (s : String) : Node := .text s

/-- A fully populated loans-table row. -/
def loanRowFull : Node :=
  .elem "tr" none (some ["arena-renewal-true"])
    [ el "span" ["arena-record-id"] [txt "12345"],
      el "div" ["arena-record-title"] [el "span" [] [txt "Boken"]],
      el "div" ["arena-record-media"] [el "span" ["arena-value"] [txt "Bok"]],
      el "div" ["arena-record-author"] [el "span" ["arena-value"] [txt "Larsson"]],
      el "div" ["arena-record-year"] [el "span" ["arena-value"] [txt "2020"]],
      el "div" ["arena-renewal-branch"]
        [el "span" ["arena-value"] [txt "Lund 2025-01-02"]],
      el "span" ["arena-renewal-date-value"] [txt "2025-02-01"] ]

/-- The record `LibraryLoan.from_soup` builds from `loanRowFull`. -/
def loanFull : LibraryLoan :=
  { record_id := some "12345", type := some "Bok", title := some "Boken"
    author := some "Larsson", year := some "2020"
    loan_date := some "2025-01-02", expire_date := some "2025-02-01"
    renewable := some true }

/-- A loans-table row with a `class` attribute but no record-id span: its
construction raises (`select_one("span.arena-record-id")` returns `None`
and `.text` fails). -/
def rowBadLoan : Node := .elem "tr" none (some ["x"]) [txt "tom rad"]

/-- A document whose loans table holds only `rowBadLoan`. -/
def docBadLoanTable : Node :=
  .elem "root" none none [.elem "table" (some "loansTable") none [rowBadLoan]]

/-- A document with no loans table and no reservations container. -/
def docPlainRoot : Node := .elem "root" none none [txt "ingenting"]

/-- An active-reservation fragment (no pickup-number field). -/
def fragActive : Node :=
  el "div" ["arena-library-record"]
    [ el "span" ["arena-record-id"] [txt "1"],
      el "div" ["arena-record-title"] [el "span" [] [txt "A"]],
      el "td" ["arena-record-queue"] [el "span" ["arena-value"] [txt "1 av 2"]] ]

/-- A ready-reservation fragment (with a pickup-number field). -/
def fragReady : Node :=
  el "div" ["arena-library-record"]
    [ el "span" ["arena-record-id"] [txt "2"],
      el "div" ["arena-record-title"] [el "span" [] [txt "B"]],
      el "td" ["arena-record-pickup"] [el "span" ["arena-value"] [txt "42"]] ]

/-- An overview document with one active and one ready reservation. -/
def docRes : Node :=
  .elem "root" none none
    [el "div" ["portlet-myReservations"] [fragActive, fragReady]]

/-- A reservation fragment whose queue field text starts with a space. -/
def fragQ : Node :=
  el "div" ["arena-library-record"]
    [ el "span" ["arena-record-id"] [txt "9"],
      el "div" ["arena-record-title"] [el "span" [] [txt "T"]],
      el "td" ["arena-record-queue"] [el "span" ["arena-value"] [txt " 7"]] ]

/-- The record `LibraryReservation.from_soup` builds from `fragQ`. -/
def resQ : LibraryReservation :=
  { record_id := some "9", type := none, title := some "T", author := none
    year := none, created_date := none, expire_date := none
    queue_number := some "", pickup_library := none }

/-- A body whose login portlet has no credential-entry sub-form: logged
in. -/
def docLoggedIn : Node :=
  .elem "root" none none
    [.elem "div" (some "portlet_patronLogin_WAR_arenaportlet") none
      [txt "konto"]]

/-- A body with the login portlet and the credential-entry sub-form but no
feedback panel: not logged in, no reason given. -/
def docNotLoggedIn : Node :=
  .elem "root" none none
    [.elem "div" (some "portlet_patronLogin_WAR_arenaportlet") none
      [el "div" ["arena-patron-form"] [txt "formulär"]]]

/-- The feedback panel of `docLocked`. -/
def fbLocked : Node :=
  el "span" ["feedbackPanelWARNING"]
    [txt (lockedMsgText ++ " efter tre misslyckade försök")]

/-- The login portlet of `docLocked`. -/
def portletLocked : Node :=
  .elem "div" (some "portlet_patronLogin_WAR_arenaportlet") none
    [el "div" ["arena-patron-form"] [txt "formulär"], fbLocked]

/-- A body whose feedback text starts with the account-locked message. -/
def docLocked : Node := .elem "root" none none [portletLocked]

/-- A body whose feedback text starts with the invalid-credentials
message. -/
def docInvalid : Node :=
  .elem "root" none none
    [.elem "div" (some "portlet_patronLogin_WAR_arenaportlet") none
      [el "div" ["arena-patron-form"] [txt "formulär"],
       el "span" ["feedbackPanelWARNING"] [txt (invalidMsgText ++ ".")]]]

/-- POST responses: every attempt fails with "not logged in". -/
def postsAllFail : Nat → Node := fun _ => docNotLoggedIn

/-- POST responses: attempts 1 and 2 are "not logged in", attempt 3 is
logged in. -/
def postsThird : Nat → Node := fun n =>
  if n = 3 then docLoggedIn else docNotLoggedIn

/-- POST responses: attempt 1 is "not logged in", attempt 2 reports the
account locked. -/
def postsLockedSecond : Nat → Node := fun n =>
  if n = 2 then docLocked else docNotLoggedIn

/-- Fetch outcomes: the first refresh hits a locked account, later ones
would succeed. -/
def fetchesLockedFirst : Nat → Except ArenaExc Node := fun n =>
  if n = 0 then .error .accountLocked else .ok docLoggedIn

/-- The property claimed of the login sequence: every POST in the trace is
immediately preceded by a cookie-jar clearing. -/
def clearedBeforeEachPost (evs : List Event) : Bool :=
  (List.range evs.length).all fun i =>
    match evs.get? i with
    | some (.postReq _) =>
      (match i with
       | 0 => false
       | j + 1 => evs.get? j == some Event.clearCookies)
    | _ => true

/-! Shared helper lemmas. -/

/-- `isNotLoggedInErr` characterization. -/
theorem isNotLoggedInErr_iff (r : Except ArenaExc Unit) :
    isNotLoggedInErr r = true ↔ ∃ fb, r = .error (.notLoggedIn fb) := by
  cases r with
  | ok u => cases u; simp [isNotLoggedInErr]
  | error e => cases e <;> simp [isNotLoggedInErr]

/-- A feedback text beginning with the invalid-credentials message does
not begin with the account-locked message (they differ at the second
character). -/
theorem invalid_not_locked (s : String)
    (h : pyStartsWith s invalidMsgText = true) :
    pyStartsWith s lockedMsgText = false := by
  cases hc : pyStartsWith s lockedMsgText with
  | false => rfl
  | true =>
    exfalso
    unfold pyStartsWith at h hc
    rw [List.isPrefixOf_iff_prefix] at h hc
    rcases List.prefix_or_prefix_of_prefix hc h with h' | h' <;>
    · rw [← List.isPrefixOf_iff_prefix] at h'
      revert h'
      decide

/-- The retry loop never clears cookies. -/
theorem loginLoopGo_no_clear (posts : Nat → Node) (a r : Nat) :
    Event.clearCookies ∉ (loginLoopGo posts a r).1 := by
  induction r generalizing a with
  | zero => simp [loginLoopGo]
  | succ r ih =>
    unfold loginLoopGo
    split
    · simp
    · intro hmem
      rcases List.mem_cons.mp hmem with h' | h'
      · exact Event.noConfusion h'
      · exact ih (a + 1) h'
    · simp

/-- The retry loop issues at most `r` POSTs. -/
theorem loginLoopGo_postCount_le (posts : Nat → Node) (a r : Nat) :
    postCount (loginLoopGo posts a r).1 ≤ r := by
  induction r generalizing a with
  | zero => simp [loginLoopGo, postCount]
  | succ r ih =>
    unfold loginLoopGo
    split
    · show postCount [Event.postReq (a + 1)] ≤ r + 1
      have h1 : postCount [Event.postReq (a + 1)] = 1 := rfl
      omega
    · show postCount
        (Event.postReq (a + 1) :: (loginLoopGo posts (a + 1) r).1) ≤ r + 1
      have hle := ih (a + 1)
      have h1 : postCount
          (Event.postReq (a + 1) :: (loginLoopGo posts (a + 1) r).1) =
          postCount (loginLoopGo posts (a + 1) r).1 + 1 := by
        simp [postCount, List.countP_cons]
      omega
    · show postCount [Event.postReq (a + 1)] ≤ r + 1
      have h1 : postCount [Event.postReq (a + 1)] = 1 := rfl
      omega

/-- The retry loop with at least one remaining attempt issues at least one
POST. -/
theorem loginLoopGo_postCount_pos (posts : Nat → Node) (a r : Nat)
    (hr : 0 < r) : 1 ≤ postCount (loginLoopGo posts a r).1 := by
  cases r with
  | zero => omega
  | succ r =>
    unfold loginLoopGo
    split
    · show 1 ≤ postCount [Event.postReq (a + 1)]
      have h1 : postCount [Event.postReq (a + 1)] = 1 := rfl
      omega
    · show 1 ≤ postCount
        (Event.postReq (a + 1) :: (loginLoopGo posts (a + 1) r).1)
      have h1 : postCount
          (Event.postReq (a + 1) :: (loginLoopGo posts (a + 1) r).1) =
          postCount (loginLoopGo posts (a + 1) r).1 + 1 := by
        simp [postCount, List.countP_cons]
      omega
    · show 1 ≤ postCount [Event.postReq (a + 1)]
      have h1 : postCount [Event.postReq (a + 1)] = 1 := rfl
      omega

/-! Claim theorems. -/

/-- C1 counterexample: the claim "the record extractor never raises: a
missing field in a row yields a null attribute" is false.  A loans-table
row with no `span.arena-record-id` makes `LibraryLoan.from_soup` raise
(`select_one(...).text` on `None`), and `get_loans` propagates the
exception (`none` models the raised exception), instead of producing a
record with null fields. -/
theorem C1_counterexample :
    ArenaClient.get_loans docBadLoanTable = none ∧
    LibraryLoan.from_soup rowBadLoan = none := ⟨rfl, rfl⟩

/-- C1 (amended): a missing loans table or reservations container yields
empty lists, and the fields read through `_get_value` alone degrade to
null; but each per-row constructor raises exactly when one of its required
lookups (class attribute / record-id span / title span / renewal-branch
value / renewal-date span for loans; record-id span / title span / queue
value for active reservations; record-id span / title span for ready
reservations) is missing. -/
theorem C1_extraction_totality (doc frag : Node) :
    (selectOne selLoansTable doc = none →
      ArenaClient.get_loans doc = some []) ∧
    (ArenaClient.get_reservations doc = none →
      ArenaClient.get_active_reservations doc = some [] ∧
      ArenaClient.get_ready_reservations doc = some []) ∧
    ((LibraryLoan.from_soup frag).isSome =
      (frag.classAttr.isSome && (selectOne selRecordId frag).isSome &&
       (selectOneDesc selRecordTitle selAnySpan frag).isSome &&
       (get_value frag selRenewalBranch).isSome &&
       (selectOne selRenewalDateValue frag).isSome)) ∧
    (∀ loan, LibraryLoan.from_soup frag = some loan →
      loan.type = get_value frag selRecordMedia ∧
      loan.author = get_value frag selRecordAuthor ∧
      loan.year = get_value frag selRecordYear) ∧
    ((LibraryReservation.from_soup frag).isSome =
      ((selectOne selRecordId frag).isSome &&
       (selectOneDesc selRecordTitle selAnySpan frag).isSome &&
       (get_value frag selRecordQueue).isSome)) ∧
    (∀ res, LibraryReservation.from_soup frag = some res →
      res.type = get_value frag selRecordMedia ∧
      res.author = get_value frag selRecordAuthor ∧
      res.year = get_value frag selRecordYear ∧
      res.created_date = get_value frag selReservationFrom ∧
      res.expire_date = get_value frag selReservationTo ∧
      res.pickup_library = get_value frag selRecordBranch) ∧
    ((LibraryReservationReady.from_soup frag).isSome =
      ((selectOne selRecordId frag).isSome &&
       (selectOneDesc selRecordTitle selAnySpan frag).isSome)) ∧
    (∀ rr, LibraryReservationReady.from_soup frag = some rr →
      rr.type = get_value frag selRecordMedia ∧
      rr.author = get_value frag selRecordAuthor ∧
      rr.year = get_value frag selRecordYear ∧
      rr.created_date = get_value frag selReservationFrom ∧
      rr.pickup_date = get_value frag selRecordExpire ∧
      rr.reservation_number = get_value frag selRecordPickup ∧
      rr.pickup_library = get_value frag selRecordBranch) := by
  refine ⟨?_, ?_, ?_, ?_, ?_, ?_, ?_, ?_⟩
  · intro h
    simp [ArenaClient.get_loans, h]
  · intro h
    constructor
    · simp [ArenaClient.get_active_reservations, activeFragments,
        reservationFragments, h]
      rfl
    · simp [ArenaClient.get_ready_reservations, readyFragments,
        reservationFragments, h]
      rfl
  · unfold LibraryLoan.from_soup
    repeat' split <;> simp_all
  · intro loan h
    unfold LibraryLoan.from_soup at h
    repeat' split at h
    all_goals first
      | exact Option.noConfusion h
      | (injection h with h; subst h; exact ⟨rfl, rfl, rfl⟩)
  · unfold LibraryReservation.from_soup
    repeat' split <;> simp_all
  · intro res h
    unfold LibraryReservation.from_soup at h
    repeat' split at h
    all_goals first
      | exact Option.noConfusion h
      | (injection h with h; subst h; exact ⟨rfl, rfl, rfl, rfl, rfl, rfl⟩)
  · unfold LibraryReservationReady.from_soup
    repeat' split <;> simp_all
  · intro rr h
    unfold LibraryReservationReady.from_soup at h
    repeat' split at h
    all_goals first
      | exact Option.noConfusion h
      | (injection h with h; subst h; exact ⟨rfl, rfl, rfl, rfl, rfl, rfl, rfl⟩)

/-- C1 witness: a document with no loans table yields the empty loan list
(and concrete evaluations for the other conjuncts are exercised by the
theorem's application to concrete documents elsewhere). -/
theorem C1_extraction_totality_witness :
    ArenaClient.get_loans docPlainRoot = some [] :=
  (C1_extraction_totality docPlainRoot loanRowFull).1 rfl

/-- C2: the claim's error mapping does not match the code: because the
`except ArenaError` clause precedes the `except ArenaAccountLockedError`
and `except ArenaInvalidCredentialsError` clauses and both classes
subclass `ArenaError`, `validate_input` maps *every* Arena failure —
including account-locked and invalid-credentials — to `cannot_connect`;
the two later clauses are dead.  The spec's intended mapping
(`validateInputSpec`) differs at exactly these inputs.  An entry is never
created on any failure. -/
theorem C2_validate_input_divergence :
    validate_input (some PyExc.arenaAccountLocked) =
      [("base", "cannot_connect")] ∧
    validate_input (some PyExc.arenaInvalidCredentials) =
      [("base", "cannot_connect")] ∧
    validateInputSpec (some PyExc.arenaAccountLocked) =
      [("base", "account_locked")] ∧
    validateInputSpec (some PyExc.arenaInvalidCredentials) =
      [("base", "invalid_credentials")] ∧
    (∀ e : PyExc, async_step_user_creates_entry (some e) = false) :=
  ⟨rfl, rfl, rfl, rfl, fun e => by cases e <;> rfl⟩

/-- C3 counterexample: the claim "for each of the up-to-3 POST attempts,
the cookie jar is emptied before the POST is issued" is false: with three
not-logged-in POST responses the trace is
`[clearCookies, postReq 1, postReq 2, postReq 3]`, and the second and
third POSTs are not preceded by a clearing. -/
theorem C3_counterexample :
    clearedBeforeEachPost (ArenaClient.login_and_get_url postsAllFail).1 =
      false := by
  rfl

/-- C3 (amended): the cookie jar is emptied exactly once per login
sequence, before the first POST attempt; it is not re-emptied before
subsequent attempts. -/
theorem C3_cookie_clearing (posts : Nat → Node) :
    (ArenaClient.login_and_get_url posts).1.head? =
      some Event.clearCookies ∧
    Event.clearCookies ∉ (ArenaClient.login_and_get_url posts).1.tail := by
  constructor
  · rfl
  · show Event.clearCookies ∉ (loginLoopGo posts 0 LOGIN_ATTEMPTS).1
    exact loginLoopGo_no_clear posts 0 LOGIN_ATTEMPTS

/-- C8 counterexample: the claim "the queue number equals the first
whitespace-delimited token of the raw queue-position field's text" is
false: for a queue field text `" 7"` the code (`.split(" ")[0]`) stores
the empty string, while the first whitespace-delimited token is `"7"`. -/
theorem C8_counterexample :
    LibraryReservation.from_soup fragQ = some resQ ∧
    resQ.queue_number = some "" ∧
    get_value fragQ selRecordQueue = some " 7" ∧
    firstWhitespaceToken " 7" = "7" ∧
    some ("" : String) ≠ some (firstWhitespaceToken " 7") :=
  ⟨rfl, rfl, rfl, rfl, by decide⟩

/-- C8 (amended): the loan date is the text after the final space
character of the renewal-branch field's text (the whole text when it has
no space), and the queue number is the text before the first space
character of the raw queue-position field's text (Python
`.split(" ")[0]`, which may be empty and does not split on other
whitespace). -/
theorem C8_token_derivations (fragL fragR : Node) (loan : LibraryLoan)
    (res : LibraryReservation) :
    (LibraryLoan.from_soup fragL = some loan →
      ∃ b, get_value fragL selRenewalBranch = some b ∧
        loan.loan_date = some (rsplitSpaceLast b)) ∧
    (LibraryReservation.from_soup fragR = some res →
      ∃ q, get_value fragR selRecordQueue = some q ∧
        res.queue_number = some (splitSpaceFirst q)) := by
  constructor
  · intro h
    unfold LibraryLoan.from_soup at h
    repeat' split at h
    all_goals first
      | exact Option.noConfusion h
      | (injection h with h; subst h;
         exact ⟨_, by assumption, rfl⟩)
  · intro h
    unfold LibraryReservation.from_soup at h
    repeat' split at h
    all_goals first
      | exact Option.noConfusion h
      | (injection h with h; subst h;
         exact ⟨_, by assumption, rfl⟩)

/-- C8 witness: the concrete fully populated loan row has its loan date
derived from the renewal-branch text `"Lund 2025-01-02"`. -/
theorem C8_token_derivations_witness :
    ∃ b, get_value loanRowFull selRenewalBranch = some b ∧
      loanFull.loan_date = some (rsplitSpaceLast b) :=
  (C8_token_derivations loanRowFull fragQ loanFull resQ).1 rfl

/-- Step lemma: an attempt whose inspection reports logged in returns that
body. -/
theorem loginLoopGo_ok (posts : Nat → Node) (a r : Nat)
    (h : ArenaClient.raise_if_not_logged_in (posts (a + 1)) = .ok ()) :
    loginLoopGo posts a (r + 1) =
      ([.postReq (a + 1)], .ok (posts (a + 1))) := by
  unfold loginLoopGo
  rw [h]

/-- Step lemma: an attempt whose inspection raises
`ArenaNotLoggedInError` is swallowed and the loop continues. -/
theorem loginLoopGo_nli (posts : Nat → Node) (a r : Nat) (fb : Option String)
    (h : ArenaClient.raise_if_not_logged_in (posts (a + 1)) =
      .error (.notLoggedIn fb)) :
    loginLoopGo posts a (r + 1) =
      ((.postReq (a + 1)) :: (loginLoopGo posts (a + 1) r).1,
       (loginLoopGo posts (a + 1) r).2) := by
  conv_lhs => unfold loginLoopGo
  rw [h]

/-- Step lemma: any other inspection exception propagates immediately. -/
theorem loginLoopGo_halt (posts : Nat → Node) (a r : Nat) (e : ArenaExc)
    (h : ArenaClient.raise_if_not_logged_in (posts (a + 1)) = .error e)
    (hne : ∀ fb, e ≠ ArenaExc.notLoggedIn fb) :
    loginLoopGo posts a (r + 1) = ([.postReq (a + 1)], .error e) := by
  unfold loginLoopGo
  rw [h]
  cases e with
  | notLoggedIn fb => exact absurd rfl (hne fb)
  | loginFormNotFound => rfl
  | accountLocked => rfl
  | invalidCredentials => rfl
  | loginFailed m => rfl

/-- C4: the retry loop performs at most 3 POSTs; the body of the first
attempt whose inspection reports logged in is returned without raising
(shown for a success at attempt 1, at attempt 2 after one
not-logged-in, and at attempt 3 after two); and three not-logged-in
attempts end with the generic `ArenaLoginError("Unknown login error")`. -/
theorem C4_login_retry (posts : Nat → Node) :
    postCount (ArenaClient.login_and_get_url posts).1 ≤ LOGIN_ATTEMPTS ∧
    (ArenaClient.raise_if_not_logged_in (posts 1) = .ok () →
      (ArenaClient.login_and_get_url posts).2 = .ok (posts 1)) ∧
    (isNotLoggedInErr (ArenaClient.raise_if_not_logged_in (posts 1)) = true →
      ArenaClient.raise_if_not_logged_in (posts 2) = .ok () →
      (ArenaClient.login_and_get_url posts).2 = .ok (posts 2)) ∧
    (isNotLoggedInErr (ArenaClient.raise_if_not_logged_in (posts 1)) = true →
      isNotLoggedInErr (ArenaClient.raise_if_not_logged_in (posts 2)) = true →
      ArenaClient.raise_if_not_logged_in (posts 3) = .ok () →
      (ArenaClient.login_and_get_url posts).2 = .ok (posts 3)) ∧
    (isNotLoggedInErr (ArenaClient.raise_if_not_logged_in (posts 1)) = true →
      isNotLoggedInErr (ArenaClient.raise_if_not_logged_in (posts 2)) = true →
      isNotLoggedInErr (ArenaClient.raise_if_not_logged_in (posts 3)) = true →
      (ArenaClient.login_and_get_url posts).2 =
        .error (.loginFailed "Unknown login error")) := by
  refine ⟨?_, ?_, ?_, ?_, ?_⟩
  · show postCount
      (Event.clearCookies :: (loginLoopGo posts 0 LOGIN_ATTEMPTS).1) ≤
      LOGIN_ATTEMPTS
    have hle := loginLoopGo_postCount_le posts 0 LOGIN_ATTEMPTS
    have hc : postCount
        (Event.clearCookies :: (loginLoopGo posts 0 LOGIN_ATTEMPTS).1) =
        postCount (loginLoopGo posts 0 LOGIN_ATTEMPTS).1 := by
      simp [postCount, List.countP_cons]
    omega
  · intro h1
    show (loginLoopGo posts 0 (2 + 1)).2 = .ok (posts 1)
    rw [loginLoopGo_ok posts 0 2 h1]
  · intro hA h2
    rcases (isNotLoggedInErr_iff _).mp hA with ⟨fb1, h1⟩
    show (loginLoopGo posts 0 (2 + 1)).2 = .ok (posts 2)
    rw [loginLoopGo_nli posts 0 2 fb1 h1]
    show (loginLoopGo posts 1 (1 + 1)).2 = .ok (posts 2)
    rw [loginLoopGo_ok posts 1 1 h2]
  · intro hA hB h3
    rcases (isNotLoggedInErr_iff _).mp hA with ⟨fb1, h1⟩
    rcases (isNotLoggedInErr_iff _).mp hB with ⟨fb2, h2⟩
    show (loginLoopGo posts 0 (2 + 1)).2 = .ok (posts 3)
    rw [loginLoopGo_nli posts 0 2 fb1 h1]
    show (loginLoopGo posts 1 (1 + 1)).2 = .ok (posts 3)
    rw [loginLoopGo_nli posts 1 1 fb2 h2]
    show (loginLoopGo posts 2 (0 + 1)).2 = .ok (posts 3)
    rw [loginLoopGo_ok posts 2 0 h3]
  · intro hA hB hC
    rcases (isNotLoggedInErr_iff _).mp hA with ⟨fb1, h1⟩
    rcases (isNotLoggedInErr_iff _).mp hB with ⟨fb2, h2⟩
    rcases (isNotLoggedInErr_iff _).mp hC with ⟨fb3, h3⟩
    show (loginLoopGo posts 0 (2 + 1)).2 =
      .error (.loginFailed "Unknown login error")
    rw [loginLoopGo_nli posts 0 2 fb1 h1]
    show (loginLoopGo posts 1 (1 + 1)).2 =
      .error (.loginFailed "Unknown login error")
    rw [loginLoopGo_nli posts 1 1 fb2 h2]
    show (loginLoopGo posts 2 (0 + 1)).2 =
      .error (.loginFailed "Unknown login error")
    rw [loginLoopGo_nli posts 2 0 fb3 h3]
    rfl

/-- C4 witness: with two not-logged-in responses followed by a logged-in
one, the third body is returned. -/
theorem C4_login_retry_witness :
    (ArenaClient.login_and_get_url postsThird).2 = .ok docLoggedIn :=
  (C4_login_retry postsThird).2.2.2.1 (by rfl) (by rfl) (by rfl)

/-- C5: when the i-th POST's inspection identifies a known failure
(account locked or invalid credentials) after only not-logged-in
attempts, the login sequence fails immediately with that error and issues
exactly i POSTs — no further attempts are consumed. -/
theorem C5_known_failure_halts (posts : Nat → Node) (i : Nat) (e : ArenaExc)
    (he : e = ArenaExc.accountLocked ∨ e = ArenaExc.invalidCredentials)
    (hlo : 1 ≤ i) (hhi : i ≤ LOGIN_ATTEMPTS)
    (hprev : ∀ j, 1 ≤ j → j < i →
      isNotLoggedInErr (ArenaClient.raise_if_not_logged_in (posts j)) = true)
    (hi : ArenaClient.raise_if_not_logged_in (posts i) = .error e) :
    (ArenaClient.login_and_get_url posts).2 = .error e ∧
    postCount (ArenaClient.login_and_get_url posts).1 = i := by
  have hne : ∀ fb, e ≠ ArenaExc.notLoggedIn fb := by
    rcases he with rfl | rfl <;> intro fb h <;> exact ArenaExc.noConfusion h
  unfold LOGIN_ATTEMPTS at hhi
  interval_cases i
  · have hrw := loginLoopGo_halt posts 0 2 e hi hne
    constructor
    · show (loginLoopGo posts 0 (2 + 1)).2 = .error e
      rw [hrw]
    · show postCount
        (Event.clearCookies :: (loginLoopGo posts 0 (2 + 1)).1) = 1
      rw [hrw]
      rfl
  · rcases (isNotLoggedInErr_iff _).mp (hprev 1 (by omega) (by omega)) with ⟨fb1, h1⟩
    have hrw := loginLoopGo_halt posts 1 1 e hi hne
    constructor
    · show (loginLoopGo posts 0 (2 + 1)).2 = .error e
      rw [loginLoopGo_nli posts 0 2 fb1 h1]
      show (loginLoopGo posts 1 (1 + 1)).2 = .error e
      rw [hrw]
    · show postCount
        (Event.clearCookies :: (loginLoopGo posts 0 (2 + 1)).1) = 2
      rw [loginLoopGo_nli posts 0 2 fb1 h1]
      show postCount (Event.clearCookies :: Event.postReq (0 + 1) ::
        (loginLoopGo posts 1 (1 + 1)).1) = 2
      rw [hrw]
      rfl
  · rcases (isNotLoggedInErr_iff _).mp (hprev 1 (by omega) (by omega)) with ⟨fb1, h1⟩
    rcases (isNotLoggedInErr_iff _).mp (hprev 2 (by omega) (by omega)) with ⟨fb2, h2⟩
    have hrw := loginLoopGo_halt posts 2 0 e hi hne
    constructor
    · show (loginLoopGo posts 0 (2 + 1)).2 = .error e
      rw [loginLoopGo_nli posts 0 2 fb1 h1]
      show (loginLoopGo posts 1 (1 + 1)).2 = .error e
      rw [loginLoopGo_nli posts 1 1 fb2 h2]
      show (loginLoopGo posts 2 (0 + 1)).2 = .error e
      rw [hrw]
    · show postCount
        (Event.clearCookies :: (loginLoopGo posts 0 (2 + 1)).1) = 3
      rw [loginLoopGo_nli posts 0 2 fb1 h1]
      show postCount (Event.clearCookies :: Event.postReq (0 + 1) ::
        (loginLoopGo posts 1 (1 + 1)).1) = 3
      rw [loginLoopGo_nli posts 1 1 fb2 h2]
      show postCount (Event.clearCookies :: Event.postReq (0 + 1) ::
        Event.postReq (1 + 1) :: (loginLoopGo posts 2 (0 + 1)).1) = 3
      rw [hrw]
      rfl

/-- C5 witness: a not-logged-in first attempt followed by an
account-locked second attempt fails with `ArenaAccountLockedError` after
exactly 2 POSTs. -/
theorem C5_known_failure_halts_witness :
    (ArenaClient.login_and_get_url postsLockedSecond).2 =
      .error ArenaExc.accountLocked ∧
    postCount (ArenaClient.login_and_get_url postsLockedSecond).1 = 2 :=
  C5_known_failure_halts postsLockedSecond 2 ArenaExc.accountLocked
    (Or.inl rfl) (by omega) (by decide)
    (fun j hj1 hj2 => by interval_cases j; rfl) (by rfl)

/-- C6: the login-marker inspection yields exactly one of six outcomes as
a function of the body's structure: no login portlet ⇒ login-form-not-found
(distinct from not-logged-in); portlet without the credential-entry
sub-form ⇒ logged in (normal return); sub-form but no warning-feedback
element ⇒ not-logged-in with no reason; feedback text beginning with the
account-locked message ⇒ account locked; beginning with the
invalid-credentials message ⇒ invalid credentials (the two message
openings are incompatible, so the code's check order is immaterial); any
other feedback text ⇒ not-logged-in carrying that text. -/
theorem C6_inspection_outcomes (doc : Node) :
    (selectOne selPatronLoginPortlet doc = none →
      ArenaClient.raise_if_not_logged_in doc =
        .error ArenaExc.loginFormNotFound) ∧
    (∀ c, selectOne selPatronLoginPortlet doc = some c →
      selectOne selPatronForm c = none →
      ArenaClient.raise_if_not_logged_in doc = .ok ()) ∧
    (∀ c, selectOne selPatronLoginPortlet doc = some c →
      (selectOne selPatronForm c).isSome = true →
      selectOne selFeedbackWarning c = none →
      ArenaClient.raise_if_not_logged_in doc =
        .error (ArenaExc.notLoggedIn none)) ∧
    (∀ c fb, selectOne selPatronLoginPortlet doc = some c →
      (selectOne selPatronForm c).isSome = true →
      selectOne selFeedbackWarning c = some fb →
      pyStartsWith fb.innerText lockedMsgText = true →
      ArenaClient.raise_if_not_logged_in doc =
        .error ArenaExc.accountLocked) ∧
    (∀ c fb, selectOne selPatronLoginPortlet doc = some c →
      (selectOne selPatronForm c).isSome = true →
      selectOne selFeedbackWarning c = some fb →
      pyStartsWith fb.innerText invalidMsgText = true →
      ArenaClient.raise_if_not_logged_in doc =
        .error ArenaExc.invalidCredentials) ∧
    (∀ c fb, selectOne selPatronLoginPortlet doc = some c →
      (selectOne selPatronForm c).isSome = true →
      selectOne selFeedbackWarning c = some fb →
      pyStartsWith fb.innerText lockedMsgText = false →
      pyStartsWith fb.innerText invalidMsgText = false →
      ArenaClient.raise_if_not_logged_in doc =
        .error (ArenaExc.notLoggedIn (some fb.innerText))) := by
  refine ⟨?_, ?_, ?_, ?_, ?_, ?_⟩
  · intro h
    unfold ArenaClient.raise_if_not_logged_in
    rw [h]
  · intro c hc hform
    simp [ArenaClient.raise_if_not_logged_in, hc, hform]
  · intro c hc hs hfb
    obtain ⟨pf, hpf⟩ := Option.isSome_iff_exists.mp hs
    simp [ArenaClient.raise_if_not_logged_in, hc, hpf, hfb]
  · intro c fb hc hs hfb hlock
    obtain ⟨pf, hpf⟩ := Option.isSome_iff_exists.mp hs
    simp [ArenaClient.raise_if_not_logged_in, hc, hpf, hfb, hlock]
  · intro c fb hc hs hfb hinv
    obtain ⟨pf, hpf⟩ := Option.isSome_iff_exists.mp hs
    have hlock := invalid_not_locked fb.innerText hinv
    simp [ArenaClient.raise_if_not_logged_in, hc, hpf, hfb, hlock, hinv]
  · intro c fb hc hs hfb hlock hinv
    obtain ⟨pf, hpf⟩ := Option.isSome_iff_exists.mp hs
    simp [ArenaClient.raise_if_not_logged_in, hc, hpf, hfb, hlock, hinv]

/-- C6 witness: a concrete body whose feedback text starts with the
account-locked message is classified account-locked. -/
theorem C6_inspection_outcomes_witness :
    ArenaClient.raise_if_not_logged_in docLocked =
      .error ArenaExc.accountLocked :=
  (C6_inspection_outcomes docLocked).2.2.2.1 portletLocked fbLocked
    rfl rfl rfl (by rfl)

/-- C7: every reservation fragment of the container is selected for the
ready list iff it contains a pickup-number field and for the active list
otherwise — never both, never neither; an absent container, or one with no
reservation-record fragments, yields two empty lists. -/
theorem C7_reservation_partition (doc : Node) :
    (∀ r, r ∈ reservationFragments doc →
      ((r ∈ readyFragments doc ↔ hasPickup r = true) ∧
       (r ∈ activeFragments doc ↔ hasPickup r = false) ∧
       ¬(r ∈ readyFragments doc ∧ r ∈ activeFragments doc) ∧
       (r ∈ readyFragments doc ∨ r ∈ activeFragments doc))) ∧
    (ArenaClient.get_reservations doc = none →
      ArenaClient.get_active_reservations doc = some [] ∧
      ArenaClient.get_ready_reservations doc = some []) ∧
    (reservationFragments doc = [] →
      ArenaClient.get_active_reservations doc = some [] ∧
      ArenaClient.get_ready_reservations doc = some []) := by
  refine ⟨?_, ?_, ?_⟩
  · intro r hr
    refine ⟨?_, ?_, ?_, ?_⟩
    · simp [readyFragments, List.mem_filter, hr]
    · simp [activeFragments, List.mem_filter, hr]
    · rintro ⟨hready, hactive⟩
      have h1 := (List.mem_filter.mp hready).2
      have h2 := (List.mem_filter.mp hactive).2
      simp [h1] at h2
    · cases hp : hasPickup r with
      | true => exact Or.inl (List.mem_filter.mpr ⟨hr, hp⟩)
      | false =>
        exact Or.inr (List.mem_filter.mpr ⟨hr, by simp [hp]⟩)
  · intro h
    constructor
    · simp [ArenaClient.get_active_reservations, activeFragments,
        reservationFragments, h]
      rfl
    · simp [ArenaClient.get_ready_reservations, readyFragments,
        reservationFragments, h]
      rfl
  · intro h
    constructor
    · simp [ArenaClient.get_active_reservations, activeFragments, h]
      rfl
    · simp [ArenaClient.get_ready_reservations, readyFragments, h]
      rfl

/-- C7 witness: in a concrete overview with one active and one ready
fragment, the fragment holding a pickup-number field is selected for the
ready list and not for the active list. -/
theorem C7_reservation_partition_witness :
    fragReady ∈ readyFragments docRes ∧
    fragReady ∉ activeFragments docRes := by
  have hmem : fragReady ∈ reservationFragments docRes := by
    have he : reservationFragments docRes = [fragActive, fragReady] := rfl
    rw [he]
    exact List.mem_cons_of_mem _ (List.mem_cons_self _ _)
  have h := (C7_reservation_partition docRes).1 fragReady hmem
  refine ⟨h.1.mpr rfl, fun hact => h.2.2.1 ⟨h.1.mpr rfl, hact⟩⟩

/-- C9: once an automatic refresh has failed with the auth-failure
category (`ConfigEntryAuthFailed`, raised for account-locked or
invalid-credentials), every later refresh of the uninterrupted sequence
re-raises it without invoking the client — no further network request is
issued until the entry is rebuilt with corrected credentials. -/
theorem C9_auth_failure_latched (fetches : Nat → Except ArenaExc Node)
    (k n : Nat)
    (hk : (coordRefresh fetches k).1 = .error CoordExc.configEntryAuthFailed)
    (hkn : k < n) :
    coordRefresh fetches n = (.error CoordExc.configEntryAuthFailed, false)
    := by
  induction n with
  | zero => omega
  | succ n ih =>
    have hlast : coordLastExc fetches (n + 1) =
        some CoordExc.configEntryAuthFailed := by
      by_cases hcase : k < n
      · have hres := ih hcase
        show (match (coordRefresh fetches n).1 with
          | .ok _ => none
          | .error e => some e) = some CoordExc.configEntryAuthFailed
        rw [hres]
      · have hnk : n = k := by omega
        subst hnk
        show (match (coordRefresh fetches n).1 with
          | .ok _ => none
          | .error e => some e) = some CoordExc.configEntryAuthFailed
        rw [hk]
    show coordUpdate (coordLastExc fetches (n + 1)) (fetches (n + 1)) =
      (.error CoordExc.configEntryAuthFailed, false)
    rw [hlast]
    rfl

/-- C9 witness: after a first refresh that hits a locked account, the
second refresh re-raises the auth failure without invoking the client. -/
theorem C9_auth_failure_latched_witness :
    coordRefresh fetchesLockedFirst 1 =
      (.error CoordExc.configEntryAuthFailed, false) :=
  C9_auth_failure_latched fetchesLockedFirst 0 1 (by rfl) (by omega)

/-- C10: when the GET body's inspection identifies account-locked,
invalid-credentials or login-form-not-found, the fetch fails immediately
with that error and issues zero POSTs (only `ArenaNotLoggedInError` is
caught around the GET); a logged-in body is returned directly; only the
not-logged-in outcome (with or without feedback text) starts the login
sequence, which then issues at least one POST. -/
theorem C10_get_overview_dispatch (getResp : Node) (posts : Nat → Node) :
    (ArenaClient.raise_if_not_logged_in getResp =
        .error ArenaExc.accountLocked →
      ArenaClient.get_url getResp posts =
        ([Event.getReq], .error ArenaExc.accountLocked)) ∧
    (ArenaClient.raise_if_not_logged_in getResp =
        .error ArenaExc.invalidCredentials →
      ArenaClient.get_url getResp posts =
        ([Event.getReq], .error ArenaExc.invalidCredentials)) ∧
    (ArenaClient.raise_if_not_logged_in getResp =
        .error ArenaExc.loginFormNotFound →
      ArenaClient.get_url getResp posts =
        ([Event.getReq], .error ArenaExc.loginFormNotFound)) ∧
    (ArenaClient.raise_if_not_logged_in getResp = .ok () →
      ArenaClient.get_url getResp posts = ([Event.getReq], .ok getResp)) ∧
    (∀ fb, ArenaClient.raise_if_not_logged_in getResp =
        .error (ArenaExc.notLoggedIn fb) →
      ArenaClient.get_url getResp posts =
        (Event.getReq :: (ArenaClient.login_and_get_url posts).1,
         (ArenaClient.login_and_get_url posts).2) ∧
      1 ≤ postCount (ArenaClient.get_url getResp posts).1) := by
  refine ⟨?_, ?_, ?_, ?_, ?_⟩
  · intro h
    unfold ArenaClient.get_url
    rw [h]
  · intro h
    unfold ArenaClient.get_url
    rw [h]
  · intro h
    unfold ArenaClient.get_url
    rw [h]
  · intro h
    unfold ArenaClient.get_url
    rw [h]
  · intro fb h
    constructor
    · unfold ArenaClient.get_url
      rw [h]
    · unfold ArenaClient.get_url
      rw [h]
      show 1 ≤ postCount (Event.getReq :: Event.clearCookies ::
        (loginLoopGo posts 0 LOGIN_ATTEMPTS).1)
      have hpos := loginLoopGo_postCount_pos posts 0 LOGIN_ATTEMPTS
        (by norm_num [LOGIN_ATTEMPTS])
      have hc : postCount (Event.getReq :: Event.clearCookies ::
          (loginLoopGo posts 0 LOGIN_ATTEMPTS).1) =
          postCount (loginLoopGo posts 0 LOGIN_ATTEMPTS).1 := by
        simp [postCount, List.countP_cons]
      omega

/-- C10 witness: a GET body reporting a locked account fails immediately
with zero POSTs. -/
theorem C10_get_overview_dispatch_witness :
    ArenaClient.get_url docLocked postsAllFail =
      ([Event.getReq], .error ArenaExc.accountLocked) :=
  (C10_get_overview_dispatch docLocked postsAllFail).1 (by rfl)
